import Mathlib

/-!
Verification of the openshift-mcp-server repository against its specification.

The Python source is shallowly embedded: Python floats are modelled as exact
fractions (`PyF`, an executable unnormalized rational), raised exceptions as
the `Except PyErr` monad, and external subprocess executions as explicit
oracle environments.  Each definition below is a direct translation of the
correspondingly named function of the source.
-/

namespace OpenShiftMCP

/-- Kinds of Python exceptions that the embedded code can raise.  `ocError`
is the repository's own `OCError`; the rest are Python builtins. -/
inductive PyErr where
  | ocError (msg : String)
  | valueError (msg : String)
  | unboundLocal (name : String)
  | nameError (name : String)
  | importError (msg : String)
  | fileNotFound
  | typeError (msg : String)
  | zeroDivision
  deriving Repr, DecidableEq

instance {ε α : Type} [DecidableEq ε] [DecidableEq α] : DecidableEq (Except ε α) := fun a b =>
  match a, b with
  | .ok x, .ok y => if h : x = y then .isTrue (by rw [h]) else .isFalse (by simp [h])
  | .error e, .error f => if h : e = f then .isTrue (by rw [h]) else .isFalse (by simp [h])
  | .ok _, .error _ => .isFalse (by simp)
  | .error _, .ok _ => .isFalse (by simp)

/-- Python `str(e)` on an exception, as used by the source's f-strings. -/
def pyStr : PyErr → String
  | .ocError m => m
  | .valueError m => m
  | .unboundLocal n => "local variable '" ++ n ++ "' referenced before assignment"
  | .nameError n => "name '" ++ n ++ "' is not defined"
  | .importError m => m
  | .fileNotFound => "[Errno 2] No such file or directory: 'oc'"
  | .typeError m => m
  | .zeroDivision => "division by zero"

/-- Model of a Python float: an exact, unnormalized fraction `n / d`.  Every
value the embedding constructs has a positive denominator.  An unnormalized
representation is used so that all arithmetic is plain integer arithmetic,
which the kernel evaluates directly. -/
structure PyF where
  n : ℤ
  d : ℤ
  deriving Repr, DecidableEq

namespace PyF

def ofInt (k : ℤ) : PyF := ⟨k, 1⟩

instance (k : Nat) : OfNat PyF k := ⟨⟨k, 1⟩⟩

def add (a b : PyF) : PyF := ⟨a.n * b.d + b.n * a.d, a.d * b.d⟩

def sub (a b : PyF) : PyF := ⟨a.n * b.d - b.n * a.d, a.d * b.d⟩

def mul (a b : PyF) : PyF := ⟨a.n * b.n, a.d * b.d⟩

/-- Division, keeping the denominator positive; the caller guarantees the
divisor is nonzero (Python raises `ZeroDivisionError` otherwise — divisions
whose divisor is not a fixed nonzero constant are modelled by `pyDiv`). -/
def div (a b : PyF) : PyF :=
  if b.n < 0 then ⟨-(a.n * b.d), a.d * (-b.n)⟩ else ⟨a.n * b.d, a.d * b.n⟩

def neg (a : PyF) : PyF := ⟨-a.n, a.d⟩

instance : Add PyF := ⟨add⟩
instance : Sub PyF := ⟨sub⟩
instance : Mul PyF := ⟨mul⟩
instance : Div PyF := ⟨div⟩
instance : Neg PyF := ⟨neg⟩

/-- Numeric order (valid for positive denominators, which the embedding
maintains). -/
instance : LT PyF := ⟨fun a b => a.n * b.d < b.n * a.d⟩

instance : LE PyF := ⟨fun a b => a.n * b.d ≤ b.n * a.d⟩

instance (a b : PyF) : Decidable (a < b) :=
  inferInstanceAs (Decidable (a.n * b.d < b.n * a.d))

instance (a b : PyF) : Decidable (a ≤ b) :=
  inferInstanceAs (Decidable (a.n * b.d ≤ b.n * a.d))

/-- Python `==` on floats: numeric equality of the fractions. -/
def beq (a b : PyF) : Bool := a.n * b.d == b.n * a.d

/-- Python truthiness of a float: false exactly for `0.0`. -/
def truthy (a : PyF) : Bool := a.n != 0

/-- Python `int()`: truncation toward zero (arguments have positive
denominators). -/
def toInt (a : PyF) : ℤ := Int.tdiv a.n a.d

/-- Python `math.floor`-style floor, used to model `%.Nf` rounding. -/
def floor (a : PyF) : ℤ := Int.fdiv a.n a.d

/-- The rational value a `PyF` denotes. -/
def toRat (a : PyF) : ℚ := (a.n : ℚ) / (a.d : ℚ)

end PyF

/-- Python `/` on floats where the divisor is a computed value: raises
`ZeroDivisionError` on a zero divisor. -/
def pyDiv (a b : PyF) : Except PyErr PyF :=
  if b.n = 0 then .error .zeroDivision else .ok (a.div b)

/-- Python `str.strip()`: drop whitespace from both ends. -/
def pyStrip (s : String) : String :=
  ⟨((s.data.dropWhile Char.isWhitespace).reverse.dropWhile Char.isWhitespace).reverse⟩

/-- Value of a digit character. -/
def charDigit (c : Char) : Nat := c.toNat - 48

/-- Numeric value of a list of decimal digit characters. -/
def digitsValN (cs : List Char) : Nat := cs.foldl (fun a c => 10 * a + charDigit c) 0

/-- All characters are ASCII decimal digits. -/
def allDigits (cs : List Char) : Bool := cs.all Char.isDigit

/-- Mantissa part of a Python float literal: `digits`, `digits.`, `.digits`
or `digits.digits` (at least one digit overall). -/
def pyFloatMantissa (cs : List Char) : Option PyF :=
  match cs.splitOn '.' with
  | [ip] => if ip ≠ [] ∧ allDigits ip then some (PyF.ofInt (digitsValN ip)) else none
  | [ip, fp] =>
      if (ip ≠ [] ∨ fp ≠ []) ∧ allDigits ip ∧ allDigits fp then
        some ((PyF.ofInt (digitsValN ip)).add
          ((PyF.ofInt (digitsValN fp)).div (PyF.ofInt ((10 : ℤ) ^ fp.length))))
      else none
  | _ => none

/-- Exponent part of a Python float literal (after the `e`/`E`). -/
def pyFloatExp (cs : List Char) : Option ℤ :=
  let (sgn, t) : ℤ × List Char :=
    match cs with
    | '+' :: t => (1, t)
    | '-' :: t => (-1, t)
    | t => (1, t)
  if t ≠ [] ∧ allDigits t then some (sgn * (digitsValN t : ℤ)) else none

/-- Split a float literal at the first `e`/`E`, if any. -/
def splitAtExp (cs : List Char) : List Char × Option (List Char) :=
  match cs.findIdx? (fun c => c == 'e' || c == 'E') with
  | none => (cs, none)
  | some i => (cs.take i, some (cs.drop (i + 1)))

/-- Scale a fraction by a signed power of ten. -/
def scalePow10 (m : PyF) (e : ℤ) : PyF :=
  if 0 ≤ e then m.mul (PyF.ofInt ((10 : ℤ) ^ e.toNat))
  else m.div (PyF.ofInt ((10 : ℤ) ^ (-e).toNat))

/-- Models the Python builtin `float()` applied to a string: surrounding
whitespace is stripped, then an optional sign followed by a decimal literal
with optional fraction and exponent is accepted; anything else raises
`ValueError`.  The special forms `inf`/`nan` and underscore digit separators
are treated as unparseable here, a simplification no theorem below touches. -/
def pyFloat (s : String) : Except PyErr PyF :=
  let cs := (pyStrip s).data
  let (isNeg, cs1) : Bool × List Char :=
    match cs with
    | '+' :: t => (false, t)
    | '-' :: t => (true, t)
    | t => (false, t)
  let (mant, expPart) := splitAtExp cs1
  let res : Option PyF :=
    match pyFloatMantissa mant, expPart with
    | some m, none => some m
    | some m, some e =>
        match pyFloatExp e with
        | some ex => some (scalePow10 m ex)
        | none => none
    | none, _ => none
  match res with
  | some q => .ok (if isNeg then q.neg else q)
  | none => .error (.valueError ("could not convert string to float: '" ++ pyStrip s ++ "'"))

/-! ## utils/formatting.py -/

/-- Python `value[:-k]`: drop the last `k` characters. -/
def dropLast (s : String) (k : Nat) : String := ⟨s.data.take (s.data.length - k)⟩

/-- Does `s` end with `suf` (Python `str.endswith`)? -/
def endsWithStr (s suf : String) : Bool := suf.data.isSuffixOf s.data

/-- The binary-prefix multiplier table of `parse_quantity`, in source order. -/
def binary_suffixes : List (String × PyF) :=
  [("Ki", PyF.ofInt (2 ^ 10)), ("Mi", PyF.ofInt (2 ^ 20)), ("Gi", PyF.ofInt (2 ^ 30)),
   ("Ti", PyF.ofInt (2 ^ 40)), ("Pi", PyF.ofInt (2 ^ 50)), ("Ei", PyF.ofInt (2 ^ 60))]

/-- The decimal SI multiplier table of `parse_quantity`, in source order. -/
def decimal_suffixes : List (String × PyF) :=
  [("k", PyF.ofInt (10 ^ 3)), ("M", PyF.ofInt (10 ^ 6)), ("G", PyF.ofInt (10 ^ 9)),
   ("T", PyF.ofInt (10 ^ 12)), ("P", PyF.ofInt (10 ^ 15)), ("E", PyF.ofInt (10 ^ 18))]

/-- First suffix of the table that `v` ends with, applied: the `for suffix,
multiplier in ...` loops of `parse_quantity`.  `float(value[:-len(suffix)])`
is unguarded there, so its `ValueError` propagates. -/
def applySuffix (v : String) : List (String × PyF) → Option (Except PyErr PyF)
  | [] => none
  | (suf, mult) :: rest =>
      if endsWithStr v suf then
        some (do
          let x ← pyFloat (dropLast v suf.data.length)
          pure (x.mul mult))
      else applySuffix v rest

/-- Translation of `parse_quantity` (utils/formatting.py): strip, empty → 0,
trailing `m` → milli, binary then decimal suffix tables, and only the final
plain-number branch is wrapped in `try/except ValueError`. -/
def parse_quantity (value : String) : Except PyErr PyF :=
  let v := pyStrip value
  if v = "" then .ok 0
  else if endsWithStr v "m" then do
    let x ← pyFloat (dropLast v 1)
    pure (x.div 1000)
  else
    match applySuffix v binary_suffixes with
    | some r => r
    | none =>
        match applySuffix v decimal_suffixes with
        | some r => r
        | none =>
            match pyFloat v with
            | .ok x => .ok x
            | .error _ => .ok 0

/-- Round to the nearest integer, ties to even (the rounding Python `format`
applies for `.0f`/`.2f`). -/
def rhe (x : PyF) : ℤ :=
  let f : ℤ := x.floor
  let r : PyF := x.sub (PyF.ofInt f)
  if r < (⟨1, 2⟩ : PyF) then f
  else if (⟨1, 2⟩ : PyF) < r then f + 1
  else if f % 2 = 0 then f else f + 1

/-- Two-digit zero padding. -/
def natPad2 (k : Nat) : String := if k < 10 then "0" ++ toString k else toString k

/-- Python `f"{x:.2f}"` on our model of a float. -/
def fmtF2 (x : PyF) : String :=
  let m := rhe (x.mul 100)
  let a := m.natAbs
  (if m < 0 then "-" else "") ++ toString (a / 100) ++ "." ++ natPad2 (a % 100)

/-- Python `f"{x:.0f}"` on our model of a float. -/
def fmtF0 (x : PyF) : String :=
  let m := rhe x
  (if m < 0 then "-" else "") ++ toString m.natAbs

/-- The `power_labels` dict of `format_bytes`, with its `.get(count, 'Ti')`
default. -/
def power_labels : Nat → String
  | 0 => ""
  | 1 => "Ki"
  | 2 => "Mi"
  | 3 => "Gi"
  | 4 => "Ti"
  | _ => "Ti"

/-- The `while n > 1024 and count < 4` loop of `format_bytes`; the `count < 4`
guard bounds it by four iterations, so fuel 4 is exact. -/
def fbLoop : Nat → PyF → Nat → PyF × Nat
  | 0, m, count => (m, count)
  | fuel + 1, m, count =>
      if (1024 : PyF) < m ∧ count < 4 then fbLoop fuel (m.div 1024) (count + 1) else (m, count)

/-- Number of divisions `format_bytes` performs, i.e. the selected label scale. -/
def fbCount (size : PyF) : Nat := (fbLoop 4 size 0).2

/-- Translation of `format_bytes` (utils/formatting.py). -/
def format_bytes (size : PyF) : String :=
  let p := fbLoop 4 size 0
  fmtF2 p.1 ++ power_labels p.2

/-- Translation of `format_cpu` (utils/formatting.py). -/
def format_cpu (cores : PyF) : String :=
  if cores < (1 : PyF) then toString (cores.mul 1000).toInt ++ "m"
  else fmtF2 cores

/-- Substring test (Python `in` on strings). -/
def strContains (hay needle : String) : Bool :=
  hay.data.tails.any fun t => needle.data.isPrefixOf t

/-! ### Order transfer for `format_bytes` monotonicity -/

lemma PyF.lt_iff_toRat {a b : PyF} (ha : 0 < a.d) (hb : 0 < b.d) :
    a < b ↔ a.toRat < b.toRat := by
  have ha' : (0 : ℚ) < (a.d : ℚ) := by exact_mod_cast ha
  have hb' : (0 : ℚ) < (b.d : ℚ) := by exact_mod_cast hb
  show a.n * b.d < b.n * a.d ↔ (a.n : ℚ) / a.d < (b.n : ℚ) / b.d
  rw [div_lt_div_iff₀ ha' hb']
  exact_mod_cast Iff.rfl

lemma PyF.le_iff_toRat {a b : PyF} (ha : 0 < a.d) (hb : 0 < b.d) :
    a ≤ b ↔ a.toRat ≤ b.toRat := by
  have ha' : (0 : ℚ) < (a.d : ℚ) := by exact_mod_cast ha
  have hb' : (0 : ℚ) < (b.d : ℚ) := by exact_mod_cast hb
  show a.n * b.d ≤ b.n * a.d ↔ (a.n : ℚ) / a.d ≤ (b.n : ℚ) / b.d
  rw [div_le_div_iff₀ ha' hb']
  exact_mod_cast Iff.rfl

lemma PyF.div1024_toRat (a : PyF) : (a.div 1024).toRat = a.toRat / 1024 := by
  show (a.div ⟨1024, 1⟩).toRat = a.toRat / 1024
  simp only [PyF.div, PyF.toRat]
  norm_num
  rw [div_div]

lemma PyF.div1024_d (a : PyF) : (a.div 1024).d = a.d * 1024 := by
  show (a.div ⟨1024, 1⟩).d = a.d * 1024
  simp [PyF.div]

/-- Rational mirror of `fbLoop`, used only to prove monotonicity. -/
def fbLoopQ : Nat → ℚ → Nat → ℚ × Nat
  | 0, m, count => (m, count)
  | fuel + 1, m, count =>
      if 1024 < m ∧ count < 4 then fbLoopQ fuel (m / 1024) (count + 1) else (m, count)

lemma fbLoop_sim (fuel : Nat) (a : PyF) (c : Nat) (ha : 0 < a.d) :
    (fbLoop fuel a c).2 = (fbLoopQ fuel a.toRat c).2 := by
  induction fuel generalizing a c with
  | zero => rfl
  | succ fuel ih =>
      have h1024 : ((1024 : PyF) : PyF).toRat = (1024 : ℚ) := by
        show ((⟨1024, 1⟩ : PyF)).toRat = (1024 : ℚ)
        simp [PyF.toRat]
      have hcond : ((1024 : PyF) < a) ↔ (1024 : ℚ) < a.toRat := by
        have := PyF.lt_iff_toRat (a := (1024 : PyF)) (b := a) (by decide) ha
        rw [h1024] at this
        exact this
      show (fbLoop (fuel + 1) a c).2 = (fbLoopQ (fuel + 1) a.toRat c).2
      rw [fbLoop, fbLoopQ]
      by_cases h : (1024 : PyF) < a ∧ c < 4
      · rw [if_pos h, if_pos ⟨hcond.mp h.1, h.2⟩]
        rw [ih (a.div 1024) (c + 1) (by rw [PyF.div1024_d]; positivity),
          PyF.div1024_toRat]
      · rw [if_neg h, if_neg (by rw [← hcond] at *; exact h)]

lemma fbLoopQ_count_ge (fuel : Nat) (s : ℚ) (c : Nat) : c ≤ (fbLoopQ fuel s c).2 := by
  induction fuel generalizing s c with
  | zero => exact le_refl c
  | succ fuel ih =>
      rw [fbLoopQ]
      by_cases h : 1024 < s ∧ c < 4
      · rw [if_pos h]
        exact le_trans (Nat.le_succ c) (ih (s / 1024) (c + 1))
      · rw [if_neg h]

lemma fbLoopQ_mono (fuel : Nat) (c : Nat) (s1 s2 : ℚ) (h : s1 ≤ s2) :
    (fbLoopQ fuel s1 c).2 ≤ (fbLoopQ fuel s2 c).2 := by
  induction fuel generalizing c s1 s2 with
  | zero => exact le_refl c
  | succ fuel ih =>
      rw [fbLoopQ, fbLoopQ]
      by_cases h1 : 1024 < s1 ∧ c < 4
      · have h2 : 1024 < s2 ∧ c < 4 := ⟨lt_of_lt_of_le h1.1 h, h1.2⟩
        rw [if_pos h1, if_pos h2]
        exact ih (c + 1) _ _ ((div_le_div_iff_of_pos_right (by norm_num : (0 : ℚ) < 1024)).mpr h)
      · rw [if_neg h1]
        by_cases h2 : 1024 < s2 ∧ c < 4
        · rw [if_pos h2]
          exact le_trans (Nat.le_succ c) (fbLoopQ_count_ge fuel (s2 / 1024) (c + 1))
        · rw [if_neg h2]

/-! ## utils/oc.py -/

/-- Possible outcomes of launching the child process in `run_oc_command`:
it runs to completion with an exit code and captured output, the executable
is absent (`FileNotFoundError`), or some other launch failure occurs. -/
inductive ExecOutcome where
  | completed (returncode : ℤ) (stdout stderr : String)
  | fileNotFound
  | otherFailure (msg : String)
  deriving Repr, DecidableEq

/-- The `try` block of `run_oc_command`: on nonzero exit it raises
`OCError(f"Command failed with exit code {returncode}: {stderr}")`; the
launch failures surface as their own exception kinds. -/
def runOcTryBody : ExecOutcome → Except PyErr String
  | .completed rc out err =>
      if rc ≠ 0 then
        .error (.ocError ("Command failed with exit code " ++ toString rc ++ ": " ++ err))
      else .ok out
  | .fileNotFound => .error .fileNotFound
  | .otherFailure m => .error (.typeError m)

/-- Translation of `run_oc_command` (utils/oc.py): the `try` body followed by
`except FileNotFoundError` and then `except Exception as e`.  The second
handler also catches the `OCError` the body itself raised for a nonzero exit
code, re-wrapping it as `f"Unexpected error executing oc: {e}"`. -/
def run_oc_command (o : ExecOutcome) : Except PyErr String :=
  match runOcTryBody o with
  | .ok s => .ok s
  | .error .fileNotFound => .error (.ocError "The 'oc' CLI tool is not found in PATH.")
  | .error e => .error (.ocError ("Unexpected error executing oc: " ++ pyStr e))

/-! ## utils/prometheus.py

The module's first line is
`from openshift_mcp_server.utils.oc import run_oc_command, run_command, OCError`.
The attribute set of the `oc` module and the import are modelled so
that the failure of the import is provable; the per-function translations below take the
behaviour of `run_oc_command` as an oracle environment. -/

/-- The attributes the module `openshift_mcp_server.utils.oc` defines: its
five `import`ed modules, the module-level `logger`, and its five own
definitions. -/
def ocModuleAttrs : List String :=
  ["asyncio", "json", "logging", "shlex", "subprocess", "logger",
   "OCError", "run_oc_command", "run_oc_debug_node", "run_oc_json", "get_node_stats_summary"]

/-- The names utils/prometheus.py imports from utils/oc.py. -/
def prometheusImportsFromOc : List String := ["run_oc_command", "run_command", "OCError"]

/-- Python `from <oc> import <names>`: the first requested name absent from
the module's attributes raises `ImportError`, aborting the module load. -/
def importFromOc (names : List String) : Except PyErr Unit :=
  match names.find? (fun nm => ¬ ocModuleAttrs.contains nm) with
  | some nm =>
      .error (.importError
        ("cannot import name '" ++ nm ++ "' from 'openshift_mcp_server.utils.oc'"))
  | none => .ok ()

/-- JSON values, as produced by `json.loads`.  Numbers are modelled as
integers — the only numeric JSON fields any claim touches. -/
inductive Jv where
  | null
  | str (s : String)
  | num (k : ℤ)
  | bool (b : Bool)
  | arr (xs : List Jv)
  | obj (kvs : List (String × Jv))

namespace Jv

/-- Python `dict.get(k, default)`.  The accessors in this section assume the
JSON shapes the source's `.get` chains expect; every claim below evaluates
them only on such shapes. -/
def getD (v : Jv) (k : String) (dflt : Jv) : Jv :=
  match v with
  | .obj kvs => match kvs.find? (fun p => p.1 == k) with
    | some p => p.2
    | none => dflt
  | _ => dflt

/-- Elements of a JSON array. -/
def items : Jv → List Jv
  | .arr xs => xs
  | _ => []

/-- Python list indexing `xs[i]` on a JSON array. -/
def idx (v : Jv) (i : Nat) : Jv := (v.items.drop i).headD .null

/-- Python truthiness. -/
def truthy : Jv → Bool
  | .null => false
  | .str s => s ≠ ""
  | .num k => k ≠ 0
  | .bool b => b
  | .arr xs => ¬ xs.isEmpty
  | .obj kvs => ¬ kvs.isEmpty

/-- Python `==` between a JSON value and a string literal (the only value
comparisons the embedded code performs). -/
def eqStr (v : Jv) (s : String) : Bool :=
  match v with
  | .str t => t == s
  | _ => false

/-- Python `k in d` on a JSON object. -/
def hasKey (v : Jv) (k : String) : Bool :=
  match v with
  | .obj kvs => kvs.any (fun p => p.1 == k)
  | _ => false

/-- Python `f"{v}"` / `str(v)` on a JSON value (for the JSON values the
claims exercise: strings and integers). -/
def fmt : Jv → String
  | .null => "None"
  | .str s => s
  | .num k => toString k
  | .bool b => if b then "True" else "False"
  | .arr _ => "[...]"
  | .obj _ => "{...}"

/-- Python `float(v)`: numbers pass through, strings are parsed (raising
`ValueError` on garbage), anything else is a `TypeError`. -/
def toFloat : Jv → Except PyErr PyF
  | .num k => .ok (PyF.ofInt k)
  | .str s => pyFloat s
  | .bool b => .ok (if b then 1 else 0)
  | v => .error (.typeError ("float() argument must be a string or a real number, not " ++ v.fmt))

end Jv

/-- Oracle environment for the external world: `run` is the behaviour of
`run_oc_command` for a given argument list (and of `run_command`, were it
defined), and `loads` is `json.loads` on captured stdout. -/
structure OcEnv where
  run : List String → Except PyErr String
  loads : String → Except PyErr Jv

/-- Percent-encode a code point as UTF-8 (`urllib.parse.quote` helper). -/
def hexDigit (k : Nat) : Char := if k < 10 then Char.ofNat (48 + k) else Char.ofNat (55 + k)

def pctByte (k : Nat) : String := "%" ++ ⟨[hexDigit (k / 16 % 16), hexDigit (k % 16)]⟩

def pctEncode (k : Nat) : String :=
  if k < 128 then pctByte k
  else if k < 2048 then pctByte (192 + k / 64) ++ pctByte (128 + k % 64)
  else if k < 65536 then
    pctByte (224 + k / 4096) ++ pctByte (128 + k / 64 % 64) ++ pctByte (128 + k % 64)
  else
    pctByte (240 + k / 262144) ++ pctByte (128 + k / 4096 % 64) ++
      pctByte (128 + k / 64 % 64) ++ pctByte (128 + k % 64)

/-- `urllib.parse.quote` (default safe set keeps `_.-~` and `/`). -/
def urlQuote (s : String) : String :=
  String.join (s.data.map fun c =>
    if c.isAlphanum || c == '_' || c == '.' || c == '-' || c == '~' || c == '/' then
      String.singleton c
    else pctEncode c.toNat)

/-- `urllib.parse.urlencode({"query": q})`: `quote_plus` keeps `_.-~`, maps
space to `+` and escapes everything else (including `/`). -/
def urlencodeQuery (q : String) : String :=
  "query=" ++ String.join (q.data.map fun c =>
    if c == ' ' then "+"
    else if c.isAlphanum || c == '_' || c == '.' || c == '-' || c == '~' then
      String.singleton c
    else pctEncode c.toNat)

/-- The module constant `PROMETHEUS_ENDPOINT`. -/
def PROMETHEUS_ENDPOINT : String :=
  "/api/v1/namespaces/openshift-monitoring/services/https:prometheus-k8s:9091/proxy/api/v1/query"

/-- The `oc get route prometheus-k8s ...` argument list of
`_get_prometheus_route`. -/
def routeLookupCmd : List String :=
  ["get", "route", "prometheus-k8s", "-n", "openshift-monitoring",
   "-o", "jsonpath=\x7b.spec.host\x7d"]

/-- Result of one `_get_prometheus_route` call: the returned value (or the
propagated exception), the cache cell after the call, and whether the route
lookup command was invoked. -/
structure RouteOut where
  host : Except PyErr (Option String)
  cache : Option String
  invoked : Bool
  deriving Repr, DecidableEq

/-- Translation of `_get_prometheus_route` (utils/prometheus.py), with the
module-global `_prometheus_route_cache` passed explicitly.  A cached value is
returned without running the lookup; a successful lookup with nonempty
stripped stdout is cached; an empty host or an `OCError` caches nothing. -/
def get_prometheus_route (env : OcEnv) (cache : Option String) : RouteOut :=
  match cache with
  | some h => ⟨.ok (some h), some h, false⟩
  | none =>
      match env.run routeLookupCmd with
      | .ok out =>
          if out ≠ "" ∧ pyStrip out ≠ "" then
            ⟨.ok (some (pyStrip out)), some (pyStrip out), true⟩
          else ⟨.ok none, none, true⟩
      | .error (.ocError _) => ⟨.ok none, none, true⟩
      | .error e => ⟨.error e, none, true⟩

/-- Translation of `_query_via_route` (utils/prometheus.py): it fetches a
fresh bearer token with `oc whoami -t`, builds the curl command, and then
calls `run_command(curl_cmd)` — a name utils/oc.py does not define, so the
call raises `NameError` (were the module load even to get that far; see
`importFromOc`).  Nothing after that call can execute. -/
def query_via_route (env : OcEnv) (query route_host : String) : Except PyErr Jv := do
  let token ← env.run ["whoami", "-t"]
  let token := pyStrip token
  let encoded_query := urlQuote query
  let url := "https://" ++ route_host ++ "/api/v1/query?query=" ++ encoded_query
  let _curl_cmd := ["curl", "-k", "-s", "-H", "Authorization: Bearer " ++ token, url]
  .error (.nameError "run_command")

/-- The proxy-endpoint fallback branch of `query_prometheus`. -/
def proxy_query (env : OcEnv) (query endpoint : String) : Except PyErr Jv :=
  let full_url := endpoint ++ "?" ++ urlencodeQuery query
  match env.run ["get", "--raw", full_url] with
  | .ok out =>
      match env.loads out with
      | .ok v => .ok v
      | .error (.valueError m) => .error (.ocError ("Invalid JSON from Prometheus: " ++ m))
      | .error e => .error e
  | .error e => .error e

/-- Translation of `query_prometheus` (utils/prometheus.py): resolve the
route (consulting the cache), try the route transport when a host is known
(`except OCError` falls back to the proxy for that call only), otherwise use
the proxy endpoint.  Returns the result paired with the cache cell after the
call. -/
def query_prometheus (env : OcEnv) (cache : Option String) (query : String)
    (endpoint : String) : Except PyErr Jv × Option String :=
  let r := get_prometheus_route env cache
  match r.host with
  | .error e => (.error e, r.cache)
  | .ok hOpt =>
      let viaRoute : Option (Except PyErr Jv) :=
        match hOpt with
        | some host => if host ≠ "" then some (query_via_route env query host) else none
        | none => none
      match viaRoute with
      | some (.ok v) => (.ok v, r.cache)
      | some (.error (.ocError _)) => (proxy_query env query endpoint, r.cache)
      | some (.error e) => (.error e, r.cache)
      | none => (proxy_query env query endpoint, r.cache)

/-! ## Shared helpers for the report builders -/

/-- Python `sep.join(parts)`. -/
def strJoin (sep : String) : List String → String
  | [] => ""
  | [x] => x
  | x :: xs => x ++ sep ++ strJoin sep xs

/-- Split a character list at every character satisfying `p` (keeping empty
segments). -/
def splitPred (p : Char → Bool) (cs : List Char) : List (List Char) :=
  cs.foldr
    (fun c acc =>
      match acc with
      | [] => [[c]]
      | g :: gs => if p c then [] :: g :: gs else (c :: g) :: gs)
    [[]]

/-- Python `str.splitlines()` on newline-separated command output. -/
def splitLines (s : String) : List String :=
  (splitPred (fun c => c == '\n') s.data).map fun cs => (⟨cs⟩ : String)

/-- Python `str.split()` with no argument: split on whitespace, dropping
empty fields (splitting at each whitespace character and discarding empty
segments is equivalent to splitting on whitespace runs). -/
def pySplitWs (s : String) : List String :=
  ((splitPred Char.isWhitespace s.data).map fun cs => (⟨cs⟩ : String)).filter fun f => f ≠ ""

/-- Stable insertion into a sorted list: keeps existing elements that compare
`le` to `x` before `x`. -/
def insLe {α : Type} (le : α → α → Bool) (x : α) : List α → List α
  | [] => [x]
  | y :: ys => if le y x then y :: insLe le x ys else x :: y :: ys

/-- Stable sort (Python `sorted` / `list.sort`): elements are inserted in
original order, each after the existing elements it compares equal to. -/
def pySorted {α : Type} (le : α → α → Bool) (l : List α) : List α :=
  l.foldl (fun acc x => insLe le x acc) []

/-- Python `v > k` between a JSON number and an integer literal (the only
numeric comparison the embedded code performs on JSON values). -/
def Jv.gtInt (v : Jv) (k : ℤ) : Bool :=
  match v with
  | .num j => k < j
  | _ => false

/-! ## tools/gpu.py — inspect_gpu_pod -/

/-- The `oc get pod ... -o jsonpath={.status.phase}` argument list. -/
def statusPhaseCmd (pod_name ns : String) : List String :=
  ["get", "pod", pod_name, "-n", ns, "-o", "jsonpath=\x7b.status.phase\x7d"]

/-- The `oc exec ... -- nvidia-smi` argument list. -/
def nvidiaSmiCmd (ns pod_name : String) : List String :=
  ["exec", "-n", ns, pod_name, "--", "nvidia-smi"]

/-- The `except OCError` handler of `inspect_gpu_pod`. -/
def gpuErrMsg (m pod_name : String) : String :=
  if strContains m "executable file not found" then
    "❌ `nvidia-smi` not found in pod " ++ pod_name ++
      ". The container might not have NVIDIA drivers or tools installed."
  else "❌ Error running nvidia-smi: " ++ m

/-- Translation of `inspect_gpu_pod` (tools/gpu.py).  Returns the result
together with the trace of `oc` argument lists issued, in order: the phase
query always runs first, and the exec command runs only on a stripped phase
equal to `"Running"`.  Both calls sit in one `try` whose `except OCError`
produces `gpuErrMsg`; non-`OCError` exceptions would propagate. -/
def inspect_gpu_pod (env : OcEnv) (ns pod_name : String) :
    Except PyErr String × List (List String) :=
  let sc := statusPhaseCmd pod_name ns
  match env.run sc with
  | .error (.ocError m) => (.ok (gpuErrMsg m pod_name), [sc])
  | .error e => (.error e, [sc])
  | .ok phase =>
      if pyStrip phase ≠ "Running" then
        (.ok ("❌ Pod " ++ pod_name ++ " is not in Running phase (current: " ++ phase ++
          "). Cannot exec."), [sc])
      else
        let ec := nvidiaSmiCmd ns pod_name
        match env.run ec with
        | .error (.ocError m) => (.ok (gpuErrMsg m pod_name), [sc, ec])
        | .error e => (.error e, [sc, ec])
        | .ok output =>
            (.ok ("### GPU Status for `" ++ ns ++ "/" ++ pod_name ++ "`\n\n```\n" ++
              output ++ "\n```"), [sc, ec])

/-! ## tools/monitoring.py — detect_pod_restarts_anomalies -/

/-- One table row of the restart-anomaly report. -/
def detectRow (r : Jv) : Except PyErr String := do
  let metric := r.getD "metric" (Jv.obj [])
  let value := (r.getD "value" (Jv.arr [Jv.num 0, Jv.str "0"])).idx 1
  let nsv := (metric.getD "namespace" (Jv.str "unknown")).fmt
  let podv := (metric.getD "pod" (Jv.str "unknown")).fmt
  let restarts ← value.toFloat
  pure ("| `" ++ nsv ++ "` | `" ++ podv ++ "` | **" ++ fmtF0 restarts ++ "** |")

/-- The `try` body of `detect_pod_restarts_anomalies`, given the parsed
Prometheus response.  The `results.sort(key=lambda x: float(...))` evaluates
the key — an unguarded `float()` — on every sample before sorting. -/
def detectBody (result : Jv) (threshold : ℤ) (duration : String) :
    Except PyErr String := do
  let status := result.getD "status" Jv.null
  if ¬ status.eqStr "success" then
    return ("Prometheus query failed with status: " ++ status.fmt)
  let data := result.getD "data" (Jv.obj [])
  let results := (data.getD "result" (Jv.arr [])).items
  let header := "### Pod Restart Anomalies (>" ++ toString threshold ++ " in last " ++
    duration ++ ")"
  if results.isEmpty then
    return strJoin "\n" [header,
      "✅ No pods found with >" ++ toString threshold ++ " restarts in the last " ++
        duration ++ "."]
  let keys ← results.mapM
    (fun x => ((x.getD "value" (Jv.arr [Jv.num 0, Jv.str "0"])).idx 1).toFloat)
  let sorted := (pySorted (fun a b => decide (b.2 ≤ a.2)) (results.zip keys)).map Prod.fst
  let rows ← sorted.mapM detectRow
  pure (strJoin "\n"
    ([header, "| Namespace | Pod | Restarts |", "|-----------|-----|----------|"] ++ rows ++
     ["", "#### 📋 Recommendations",
      "1. **Check Logs**: `oc logs <pod> -n <namespace> --previous` to see why it crashed.",
      "2. **Check Events**: `oc get events -n <namespace> --field-selector involvedObject.name=<pod>`",
      "3. **OOM Killed?**: Check if memory limit is too low."]))

/-- Translation of `detect_pod_restarts_anomalies` (tools/monitoring.py),
taking the outcome of its `query_prometheus` call as input.  Only `OCError`
is caught at the boundary; every other exception propagates. -/
def detect_pod_restarts_anomalies (promResult : Except PyErr Jv) (threshold : ℤ)
    (duration : String) : Except PyErr String :=
  match promResult.bind (fun r => detectBody r threshold duration) with
  | .ok s => .ok s
  | .error (.ocError m) =>
      .ok ("Error querying Prometheus: " ++ m ++
        "\n\nMake sure OpenShift Monitoring is enabled and you have permission to access the Prometheus API.")
  | .error e => .error e

/-! ## tools/diagnostics.py — get_pod_diagnostics

The source file's emoji literals are mojibake (e.g. `âŒ` rather than a cross
mark); they are reproduced below exactly as the bytes of the file decode. -/

/-- The high-restart-count recommendation appended after the per-state
handling of one container status. -/
def highRestartRec (name : String) (restarts : Jv) : List String :=
  if restarts.gtInt 5 then
    ["- **" ++ name ++ "**: High restart count (" ++ restarts.fmt ++ "). Pod is unstable."]
  else []

/-- One row of the container-status table of `get_pod_diagnostics`, paired
with the recommendations the row contributes. -/
def diagStatusRow (cs : Jv) : String × List String :=
  let name := (cs.getD "name" (Jv.str "unknown")).fmt
  let restarts := cs.getD "restartCount" (Jv.num 0)
  let ready := if (cs.getD "ready" (Jv.bool false)).truthy then "âœ…" else "âŒ"
  let state := cs.getD "state" (Jv.obj [])
  let row (state_str reason exit_code : String) : String :=
    "| `" ++ name ++ "` | **" ++ restarts.fmt ++ "** | " ++ state_str ++ " | " ++
      reason ++ " | " ++ exit_code ++ " | " ++ ready ++ " |"
  if state.hasKey "running" then
    (row "Running" "-" "-", highRestartRec name restarts)
  else if state.hasKey "waiting" then
    let reason := ((state.getD "waiting" Jv.null).getD "reason" (Jv.str "Unknown")).fmt
    let recs :=
      if reason = "ImagePullBackOff" ∨ reason = "ErrImagePull" then
        ["- **" ++ name ++ "**: Image pull failed. Check image name and registry access."]
      else if reason = "CrashLoopBackOff" then
        ["- **" ++ name ++ "**: Container is crash looping. Check logs with `get_pod_logs`."]
      else if reason = "CreateContainerConfigError" then
        ["- **" ++ name ++ "**: Configuration error. Check ConfigMaps/Secrets."]
      else []
    (row "Waiting" reason "-", recs ++ highRestartRec name restarts)
  else if state.hasKey "terminated" then
    let reason := ((state.getD "terminated" Jv.null).getD "reason" (Jv.str "Unknown")).fmt
    let exit_code := ((state.getD "terminated" Jv.null).getD "exitCode" (Jv.str "N/A")).fmt
    let recs :=
      if reason = "OOMKilled" then
        ["- **" ++ name ++ "**: OOMKilled (Exit " ++ exit_code ++ "). Increase memory limits."]
      else if reason = "Error" ∧ exit_code ≠ "0" then
        ["- **" ++ name ++ "**: Exited with error code " ++ exit_code ++ ". Check application logs."]
      else []
    (row "Terminated" reason exit_code, recs ++ highRestartRec name restarts)
  else
    (row "Unknown" "-" "-", highRestartRec name restarts)

/-- The `**Conditions**:` block of `get_pod_diagnostics`. -/
def diagCondLines (conditions : List Jv) : List String :=
  if conditions.isEmpty then []
  else
    ("**Conditions**:" ::
      conditions.flatMap fun cond =>
        let cond_type := cond.getD "type" Jv.null
        let cond_status := cond.getD "status" Jv.null
        let reason := cond.getD "reason" (Jv.str "")
        let message := cond.getD "message" (Jv.str "")
        let icon := if cond_status.eqStr "True" then "âœ…" else "âŒ"
        ["- " ++ icon ++ " " ++ cond_type.fmt ++ ": " ++ cond_status.fmt] ++
          (if reason.truthy ∧ ¬ cond_status.eqStr "True" then
            ["  - Reason: " ++ reason.fmt] else []) ++
          (if message.truthy ∧ ¬ cond_status.eqStr "True" then
            ["  - " ++ message.fmt] else [])) ++
    [""]

/-- One row of the recent-events table (`for event in reversed(...)`). -/
def diagEventRows (warning_events : List Jv) : List String :=
  warning_events.reverse.map fun event =>
    let event_type := (event.getD "type" (Jv.str "Unknown")).fmt
    let reason := (event.getD "reason" (Jv.str "Unknown")).fmt
    let message := (event.getD "message" (Jv.str "")).fmt
    let last_timestamp := (event.getD "lastTimestamp" (Jv.str "")).fmt
    let message := if message.length > 80 then (⟨message.data.take 77⟩ : String) ++ "..." else message
    "| " ++ last_timestamp ++ " | " ++ event_type ++ " | " ++ reason ++ " | " ++ message ++ " |"

/-- The events section: a failed events fetch is only logged (`except
OCError`), while a non-`OCError` exception would propagate. -/
def diagEventsLines (eventsResult : Except PyErr Jv) : Except PyErr (List String) :=
  match eventsResult with
  | .ok events_json =>
      let events := (events_json.getD "items" (Jv.arr [])).items
      let warning_events := events.filter fun e =>
        (e.getD "type" Jv.null).eqStr "Warning" || (e.getD "type" Jv.null).eqStr "Error"
      let warning_events := warning_events.drop (warning_events.length - 20)
      .ok (if warning_events.isEmpty then []
        else
          ["#### Recent Events (Warnings/Errors)",
           "| Time | Type | Reason | Message |",
           "|------|------|--------|---------|"] ++ diagEventRows warning_events ++ [""])
  | .error (.ocError _) => .ok []
  | .error e => .error e

/-- The `try` body of `get_pod_diagnostics`.  `recommendations = []` is
assigned only inside the `if container_statuses or init_container_statuses:`
block (modelled by the `Option`); when both status lists are empty the later
`if recommendations:` read raises `UnboundLocalError`. -/
def diagBody (podResult eventsResult : Except PyErr Jv) (ns pod_name : String) :
    Except PyErr String := do
  let pod_json ← podResult
  let spec := pod_json.getD "spec" (Jv.obj [])
  let status := pod_json.getD "status" (Jv.obj [])
  let phase := status.getD "phase" (Jv.str "Unknown")
  let node := spec.getD "nodeName" (Jv.str "Not assigned")
  let start_time := status.getD "startTime" (Jv.str "N/A")
  let qos_class := status.getD "qosClass" (Jv.str "N/A")
  let out1 : List String :=
    ["### Pod Diagnostics: `" ++ ns ++ "/" ++ pod_name ++ "`\n",
     "#### Pod Status",
     "- **Phase**: " ++ phase.fmt,
     "- **Node**: " ++ node.fmt,
     "- **QoS Class**: " ++ qos_class.fmt,
     "- **Start Time**: " ++ start_time.fmt ++ "\n"]
  let container_statuses := (status.getD "containerStatuses" (Jv.arr [])).items
  let init_container_statuses := (status.getD "initContainerStatuses" (Jv.arr [])).items
  let tableAndRecs : List String × Option (List String) :=
    if ¬ container_statuses.isEmpty ∨ ¬ init_container_statuses.isEmpty then
      let all_statuses := init_container_statuses ++ container_statuses
      let rows := all_statuses.map diagStatusRow
      (["| Container | Restarts | State | Reason | Exit Code | Ready |",
        "|-----------|----------|-------|--------|-----------|-------|"] ++
        rows.map Prod.fst ++ [""],
       some (rows.flatMap Prod.snd))
    else ([], none)
  let eventLines ← diagEventsLines eventsResult
  let recLines ←
    match tableAndRecs.2 with
    | none => Except.error (PyErr.unboundLocal "recommendations")
    | some recommendations =>
        Except.ok (if ¬ recommendations.isEmpty then
          "#### ğŸ’¡ Recommendations" :: recommendations
        else ["#### âœ… No issues detected"])
  pure (strJoin "\n"
    (out1 ++ diagCondLines (status.getD "conditions" (Jv.arr [])).items ++
      ["#### Container Status"] ++ tableAndRecs.1 ++ eventLines ++ recLines))

/-- Translation of `get_pod_diagnostics` (tools/diagnostics.py), taking the
outcomes of its `run_oc_json` calls for the pod and for the events as
inputs.  Only `OCError` is caught at the outer boundary. -/
def get_pod_diagnostics (podResult eventsResult : Except PyErr Jv) (ns pod_name : String) :
    Except PyErr String :=
  match diagBody podResult eventsResult ns pod_name with
  | .ok s => .ok s
  | .error (.ocError m) =>
      .ok ("âŒ Error accessing pod " ++ ns ++ "/" ++ pod_name ++ ": " ++ m)
  | .error e => .error e

/-! ## tools/resources.py — get_cluster_resource_balance -/

/-- The per-node accumulator dict of `get_cluster_resource_balance`. -/
structure Stats where
  cpu_cap : PyF
  mem_cap : PyF
  pod_cap : PyF
  cpu_req : PyF
  mem_req : PyF
  pod_count : ℕ
  cpu_used : PyF
  mem_used : PyF
  deriving Repr, DecidableEq

/-- `node_stats` as an insertion-ordered association list (Python dicts
preserve insertion order). -/
abbrev NodeStatsMap := List (String × Stats)

def alHasKey (l : NodeStatsMap) (k : String) : Bool := l.any fun p => p.1 == k

def alGet (l : NodeStatsMap) (k : String) : Stats :=
  ((l.find? fun p => p.1 == k).map Prod.snd).getD ⟨0, 0, 0, 0, 0, 0, 0, 0⟩

def alSet (l : NodeStatsMap) (k : String) (v : Stats) : NodeStatsMap :=
  if alHasKey l k then l.map (fun p => if p.1 == k then (k, v) else p) else l ++ [(k, v)]

/-- Initialisation of one node's stats from its allocatable capacity
(`node["metadata"]["name"]` and `node["status"]["allocatable"]` are direct
subscripts in the source; the claims evaluate this only on objects carrying
those keys). -/
def initNodeStats (node : Jv) : Except PyErr (String × Stats) := do
  let name := ((node.getD "metadata" Jv.null).getD "name" Jv.null).fmt
  let allocatable := (node.getD "status" Jv.null).getD "allocatable" Jv.null
  let cpu_cap ← parse_quantity (allocatable.getD "cpu" (Jv.str "0")).fmt
  let mem_cap ← parse_quantity (allocatable.getD "memory" (Jv.str "0")).fmt
  let pod_cap ← parse_quantity (allocatable.getD "pods" (Jv.str "0")).fmt
  pure (name, ⟨cpu_cap, mem_cap, pod_cap, 0, 0, 0, 0, 0⟩)

/-- The per-pod pass summing container requests onto the pod's node. -/
def applyPod (stats : NodeStatsMap) (pod : Jv) : Except PyErr NodeStatsMap := do
  let spec := pod.getD "spec" (Jv.obj [])
  let node_name := spec.getD "nodeName" Jv.null
  let status_phase := (pod.getD "status" (Jv.obj [])).getD "phase" Jv.null
  if status_phase.eqStr "Succeeded" ∨ status_phase.eqStr "Failed" then
    return stats
  let nm := node_name.fmt
  if node_name.truthy ∧ alHasKey stats nm then do
    let s0 := alGet stats nm
    let s0 := { s0 with pod_count := s0.pod_count + 1 }
    let s1 ← (spec.getD "containers" (Jv.arr [])).items.foldlM
      (fun (s : Stats) c => do
        let requests := (c.getD "resources" (Jv.obj [])).getD "requests" (Jv.obj [])
        let cq ← parse_quantity (requests.getD "cpu" (Jv.str "0")).fmt
        let mq ← parse_quantity (requests.getD "memory" (Jv.str "0")).fmt
        pure { s with cpu_req := s.cpu_req.add cq, mem_req := s.mem_req.add mq })
      s0
    pure (alSet stats nm s1)
  else
    pure stats

/-- One line of `oc adm top nodes --no-headers` output applied to the stats
(`NAME CPU(cores) CPU% MEMORY(bytes) MEMORY%`). -/
def applyUsageLine (stats : NodeStatsMap) (line : String) : Except PyErr NodeStatsMap := do
  let parts := pySplitWs line
  if parts.length ≥ 5 then
    let name := parts.headD ""
    let cpu_used_str := (parts.drop 1).headD ""
    let mem_used_str := (parts.drop 3).headD ""
    if alHasKey stats name then do
      let s := alGet stats name
      let cu ← parse_quantity cpu_used_str
      let mu ← parse_quantity mem_used_str
      pure (alSet stats name { s with cpu_used := cu, mem_used := mu })
    else pure stats
  else pure stats

/-- Python `cap or 1.0` — the "avoid div by zero" guard: a capacity equal to
`0.0` (the falsy float) is replaced by `1.0`. -/
def orOne (c : PyF) : PyF := if c.truthy then c else 1

/-- The row-local `highlight` helper (always called with its default
`boundary=85`). -/
def highlight (val : PyF) : String :=
  let s := fmtF0 val ++ "%"
  if (85 : PyF) ≤ val then "**" ++ s ++ "**" else s

/-- One table row: every percentage divides by `cap or 1.0` via Python `/`
(modelled by `pyDiv`, which raises on a zero divisor). -/
def rowOfStats (name : String) (stats : Stats) (metrics_available : Bool) :
    Except PyErr String := do
  let cpu_cap := orOne stats.cpu_cap
  let cpu_req_pct := (← pyDiv stats.cpu_req cpu_cap).mul 100
  let cpu_used_pct := (← pyDiv stats.cpu_used cpu_cap).mul 100
  let mem_cap := orOne stats.mem_cap
  let mem_req_pct := (← pyDiv stats.mem_req mem_cap).mul 100
  let mem_used_pct := (← pyDiv stats.mem_used mem_cap).mul 100
  pure ("| `" ++ name ++ "` | " ++ highlight cpu_req_pct ++ " | " ++
    (if metrics_available then highlight cpu_used_pct else "-") ++ " | " ++
    highlight mem_req_pct ++ " | " ++
    (if metrics_available then highlight mem_used_pct else "-") ++ " | " ++
    toString stats.pod_count ++ "/" ++ toString stats.pod_cap.toInt ++ " |")

/-- The `full_req_nodes` membership test, with Python `or`'s short-circuit:
the memory ratio is evaluated only when the CPU ratio is not above 0.85. -/
def fullReqCheck (s : Stats) : Except PyErr Bool := do
  let c ← pyDiv s.cpu_req (orOne s.cpu_cap)
  if (⟨85, 100⟩ : PyF) < c then
    pure true
  else
    let m ← pyDiv s.mem_req (orOne s.mem_cap)
    pure ((⟨85, 100⟩ : PyF) < m)

/-- The fragmentation-gap computation of the insights block. -/
def fragGap (s : Stats) : Except PyErr PyF := do
  let g ← pyDiv (s.cpu_req.sub s.cpu_used) (orOne s.cpu_cap)
  pure (g.mul 100)

/-- The insights/recommendations block (iterating `node_stats.items()` in
insertion order; the gap is computed before the `metrics_available` test). -/
def insightLines (stats : NodeStatsMap) (metrics_available : Bool) :
    Except PyErr (List String) := do
  let full_req_nodes ← stats.foldlM
    (fun (acc : NodeStatsMap) p => do
      let b ← fullReqCheck p.2
      pure (if b then acc ++ [p] else acc))
    ([] : NodeStatsMap)
  if full_req_nodes.isEmpty then
    pure []
  else do
    let gapLines ← full_req_nodes.foldlM
      (fun (acc : List String) p => do
        let cpu_gap ← fragGap p.2
        pure (if metrics_available ∧ (50 : PyF) < cpu_gap then
          acc ++ ["  - **" ++ p.1 ++ "**: High fragmentation (" ++ fmtF0 cpu_gap ++
            "% gap between CPU request & usage). Consider lowering requests for workloads on this node."]
        else acc))
      ([] : List String)
    pure (["#### 💡 Insights",
      "- **Scheduling Pressure**: " ++ toString full_req_nodes.length ++
        " nodes are >85% requested. New pods may fail to schedule."] ++ gapLines)

/-- The `try` body of `get_cluster_resource_balance`, taking the three
gathered results (`asyncio.gather(..., return_exceptions=True)` hands each
back as a value or an exception): a failed node fetch is re-raised, a failed
pod fetch is only logged, a failed or empty usage fetch clears
`metrics_available`. -/
def balanceBody (nodesRes podsRes : Except PyErr Jv) (usageRes : Except PyErr String) :
    Except PyErr String := do
  let nodes_json ← nodesRes
  let nodes := (nodes_json.getD "items" (Jv.arr [])).items
  let statsInit ← nodes.foldlM
    (fun (acc : NodeStatsMap) node => do
      let p ← initNodeStats node
      pure (alSet acc p.1 p.2))
    ([] : NodeStatsMap)
  let statsAfterPods ←
    match podsRes with
    | .ok pods_json => (pods_json.getD "items" (Jv.arr [])).items.foldlM applyPod statsInit
    | .error _ => pure statsInit
  let usageParsed ←
    match usageRes with
    | .ok usage_output =>
        if usage_output ≠ "" then do
          let s ← (splitLines (pyStrip usage_output)).foldlM applyUsageLine statsAfterPods
          pure (true, s)
        else pure (false, statsAfterPods)
    | .error _ => pure (false, statsAfterPods)
  let metrics_available := usageParsed.1
  let statsFinal := usageParsed.2
  let headerLines :=
    ["### Cluster Resource Balance Report"] ++
    (if ¬ metrics_available then
      ["> ⚠️  Metrics API not available (oc adm top nodes failed). usage columns will be empty."]
    else []) ++
    ["| Node | CPU Req | CPU Used | Mem Req | Mem Used | Pods |",
     "|------|---------|----------|---------|----------|------|"]
  let sortedStats := pySorted (fun a b => decide (a.1 ≤ b.1)) statsFinal
  let rows ← sortedStats.mapM fun p => rowOfStats p.1 p.2 metrics_available
  let insights ← insightLines statsFinal metrics_available
  pure (strJoin "\n" (headerLines ++ rows ++ [""] ++ insights))

/-- Translation of `get_cluster_resource_balance` (tools/resources.py): its
trailing `except Exception` converts every escaped exception into the
single-line error string, so the builder always returns a string. -/
def get_cluster_resource_balance (nodesRes podsRes : Except PyErr Jv)
    (usageRes : Except PyErr String) : String :=
  match balanceBody nodesRes podsRes usageRes with
  | .ok s => s
  | .error e => "Error calculating cluster resource balance: " ++ pyStr e

/-- Does `s` start with `p`? -/
def startsWithStr (s p : String) : Bool := p.data.isPrefixOf s.data

/-! # Claim theorems -/

/-! ## C2 — parse_quantity totality -/

/-- C2: the claim that `parse_quantity` is total and returns `0.0` on every
unparseable string fails on the code: a recognized suffix whose remaining
prefix is not a valid number reaches an unguarded `float()`, so `"m"`,
`"xyzm"` and `"abcKi"` raise `ValueError`.  Only the plain-number branch is
guarded (`"garbage"` and `""` do yield `0.0`, and well-formed quantities
parse as documented). -/
theorem c2_parse_quantity_not_total :
    parse_quantity "m" = .error (.valueError "could not convert string to float: ''") ∧
    parse_quantity "xyzm" = .error (.valueError "could not convert string to float: 'xyz'") ∧
    parse_quantity "abcKi" = .error (.valueError "could not convert string to float: 'abc'") ∧
    parse_quantity "garbage" = .ok 0 ∧
    parse_quantity "" = .ok 0 ∧
    parse_quantity "500m" = .ok ⟨500, 1000⟩ ∧
    parse_quantity "2Gi" = .ok ⟨2147483648, 1⟩ := by
  decide

/-! ## C1 — builder boundary -/

/-- Pod JSON whose status carries no `containerStatuses` and no
`initContainerStatuses`. -/
def c1Pod : Jv := .obj [("status", .obj [("phase", .str "Pending")])]

def c1Events : Jv := .obj [("items", .arr [])]

/-- Prometheus response with one sample whose value string is not a float. -/
def c1Prom : Jv := .obj [("status", .str "success"),
  ("data", .obj [("resultType", .str "vector"),
    ("result", .arr [.obj [("metric", .obj [("namespace", .str "ns1"), ("pod", .str "p1")]),
      ("value", .arr [.num 0, .str "not-a-number"])]])])]

/-- C1: the claim that no exception ever propagates past a tool call fails
on the code: `get_pod_diagnostics` on a pod with neither container-status
list raises `UnboundLocalError` at `if recommendations:` (assigned only
inside the skipped table block), and `detect_pod_restarts_anomalies` on a
sample with an unparseable value string raises `ValueError` from the sort
key — neither is an `OCError`, the only kind the boundary handlers catch
(which do work, as the third conjunct shows). -/
theorem c1_exceptions_escape_builders :
    get_pod_diagnostics (.ok c1Pod) (.ok c1Events) "default" "mypod" =
      .error (.unboundLocal "recommendations") ∧
    detect_pod_restarts_anomalies (.ok c1Prom) 5 "1h" =
      .error (.valueError "could not convert string to float: 'not-a-number'") ∧
    get_pod_diagnostics (.error (.ocError "denied")) (.ok c1Events) "default" "mypod" =
      .ok "âŒ Error accessing pod default/mypod: denied" := by
  refine ⟨by decide, by decide, by decide⟩

/-! ## C3 — run_oc_command failure kinds -/

/-- C3 counterexample: on a nonzero exit code the raised `OCError` is itself
caught by the trailing `except Exception` and re-wrapped, so the error is
the unexpected-execution wrapper — not the bare command-failed error the
claim says, contradicting "only other launch failures produce the
unexpected-execution wrapper". -/
theorem c3_counterexample :
    run_oc_command (.completed 1 "" "boom") ≠
      .error (.ocError "Command failed with exit code 1: boom") ∧
    run_oc_command (.completed 1 "" "boom") =
      .error (.ocError "Unexpected error executing oc: Command failed with exit code 1: boom") := by
  refine ⟨by decide, by decide⟩

/-- C3 (amended): `run_oc_command` fails on nonzero exit with an `OCError`
whose message is the unexpected-execution wrapper around the command-failed
text (still carrying the exit code and stderr); an absent executable yields
the executable-not-found message; any other launch failure yields the
unexpected-execution wrapper; a zero exit returns stdout. -/
theorem c3_amended :
    (∀ (rc : ℤ) (out err : String), rc ≠ 0 →
      run_oc_command (.completed rc out err) =
        .error (.ocError ("Unexpected error executing oc: Command failed with exit code " ++
          toString rc ++ ": " ++ err))) ∧
    (∀ out err : String, run_oc_command (.completed 0 out err) = .ok out) ∧
    run_oc_command .fileNotFound = .error (.ocError "The 'oc' CLI tool is not found in PATH.") ∧
    (∀ m : String, run_oc_command (.otherFailure m) =
      .error (.ocError ("Unexpected error executing oc: " ++ m))) := by
  refine ⟨?_, ?_, by decide, fun m => rfl⟩
  · intro rc out err h
    simp only [run_oc_command, runOcTryBody, if_neg, h, ite_true, if_pos, ne_eq,
      not_false_iff, pyStr]
    simp only [← String.append_assoc]
    rfl
  · intro out err
    rfl

/-- C3 witness: the amended statement applied at exit code 2. -/
theorem c3_amended_witness :
    run_oc_command (.completed 2 "" "denied") =
      .error (.ocError "Unexpected error executing oc: Command failed with exit code 2: denied") :=
  c3_amended.1 2 "" "denied" (by decide)

/-! ## C5 — run_command does not exist -/

/-- C5: utils/prometheus.py imports `run_command` from utils/oc.py, but the
oc module's attributes do not include that name, so the module load raises
`ImportError`; and `_query_via_route` — the sole consumer of `run_command` —
cannot return successfully for any environment and inputs. -/
theorem c5_run_command_missing :
    ocModuleAttrs.contains "run_command" = false ∧
    importFromOc prometheusImportsFromOc =
      .error (.importError "cannot import name 'run_command' from 'openshift_mcp_server.utils.oc'") ∧
    (∀ (env : OcEnv) (q host : String), ∃ e, query_via_route env q host = .error e) := by
  refine ⟨by decide, by decide, fun env q host => ?_⟩
  cases henv : env.run ["whoami", "-t"] with
  | ok tok =>
      exact ⟨.nameError "run_command", by simp [query_via_route, henv, Bind.bind, Except.bind]⟩
  | error e => exact ⟨e, by simp [query_via_route, henv, Bind.bind, Except.bind]⟩

/-! ## C4 — route transport -/

/-- Environment in which the route lookup succeeds and the token fetch
succeeds. -/
def c4Env : OcEnv :=
  ⟨fun args =>
    if args = routeLookupCmd then .ok "prom.apps.example.com\n"
    else if args = ["whoami", "-t"] then .ok "sha256~tok\n"
    else .error (.ocError "unused"),
   fun _ => .error (.valueError "unused")⟩

/-- C4: the claimed behaviour — an authenticated request to the resolved
host with a fresh token, falling back to the proxy for that call only on a
route-transport failure — cannot occur: the route transport's call to the
undefined `run_command` raises `NameError` (and the module import itself
already fails, see C5), which `except OCError` does not catch, so with a
resolved route the query call raises instead of executing or falling back;
the cache does keep the host. -/
theorem c4_route_transport_raises :
    (query_prometheus c4Env none "up" PROMETHEUS_ENDPOINT).1 =
      .error (.nameError "run_command") ∧
    (query_prometheus c4Env none "up" PROMETHEUS_ENDPOINT).2 = some "prom.apps.example.com" := by
  exact ⟨rfl, rfl⟩

/-! ## C6 — endpoint cache -/

/-- C6: the cache is written only by a successful route lookup whose stdout
strips to a nonempty host; a cached host is returned without invoking the
lookup; an `OCError` or an empty host caches nothing, so the next call
re-attempts the lookup. -/
theorem c6_route_cache (env : OcEnv) (h s : String) :
    (get_prometheus_route env (some h) = ⟨.ok (some h), some h, false⟩) ∧
    (env.run routeLookupCmd = .ok s → s ≠ "" → pyStrip s ≠ "" →
      get_prometheus_route env none = ⟨.ok (some (pyStrip s)), some (pyStrip s), true⟩) ∧
    (∀ m, env.run routeLookupCmd = .error (.ocError m) →
      get_prometheus_route env none = ⟨.ok none, none, true⟩) ∧
    (env.run routeLookupCmd = .ok s → pyStrip s = "" →
      get_prometheus_route env none = ⟨.ok none, none, true⟩) := by
  refine ⟨rfl, ?_, ?_, ?_⟩
  · intro hrun hne hstrip
    simp [get_prometheus_route, hrun, hne, hstrip]
  · intro m hrun
    simp [get_prometheus_route, hrun]
  · intro hrun hstrip
    simp [get_prometheus_route, hrun, hstrip]

/-- Environment for the C6 witness: the route lookup returns a host with
trailing whitespace. -/
def c6Env : OcEnv :=
  ⟨fun args => if args = routeLookupCmd then .ok "host.example \n" else .error (.ocError "no"),
   fun _ => .error (.valueError "unused")⟩

/-- C6 witness: a cache hit returns without invoking the lookup, and an
uncached call caches the stripped host. -/
theorem c6_route_cache_witness :
    get_prometheus_route c6Env (some "cachedhost") =
      ⟨.ok (some "cachedhost"), some "cachedhost", false⟩ ∧
    get_prometheus_route c6Env none =
      ⟨.ok (some "host.example"), some "host.example", true⟩ :=
  ⟨(c6_route_cache c6Env "cachedhost" "host.example \n").1,
   (c6_route_cache c6Env "cachedhost" "host.example \n").2.1 rfl (by decide) (by decide)⟩

/-! ## C7 — partial-failure tolerance of the balance report -/

def c7Nodes : Jv := .obj [("items", .arr [.obj [("metadata", .obj [("name", .str "n1")]),
  ("status", .obj [("allocatable",
    .obj [("cpu", .str "4"), ("memory", .str "8Gi"), ("pods", .str "250")])])]])]

def c7Pods : Jv := .obj [("items", .arr [])]

set_option maxRecDepth 100000 in
/-- C7 counterexample: with exactly one failed dataset — the node list —
the report is the single-line error string, not a non-error report with a
data-unavailable marker. -/
theorem c7_counterexample :
    get_cluster_resource_balance (.error (.ocError "nodes boom")) (.ok c7Pods)
        (.ok "n1   500m   12%   1000Mi   13%\n") =
      "Error calculating cluster resource balance: nodes boom" ∧
    startsWithStr
      (get_cluster_resource_balance (.error (.ocError "nodes boom")) (.ok c7Pods)
        (.ok "n1   500m   12%   1000Mi   13%\n"))
      "### Cluster Resource Balance Report" = false := by
  refine ⟨by decide, by decide⟩

set_option maxRecDepth 100000 in
/-- C7 (amended): the three datasets are gathered with exceptions captured,
but only two failures are tolerated: a failed usage command yields a
non-error report with the visible metrics-unavailable marker; a failed pod
list yields a non-error report with no visible marker (only a log line); a
failed node list is re-raised, making the whole report the single-line
error string. -/
theorem c7_amended :
    (∀ (e : PyErr) (p : Except PyErr Jv) (u : Except PyErr String),
      get_cluster_resource_balance (.error e) p u =
        "Error calculating cluster resource balance: " ++ pyStr e) ∧
    get_cluster_resource_balance (.ok c7Nodes) (.ok c7Pods) (.error (.ocError "top failed")) =
      "### Cluster Resource Balance Report\n> ⚠️  Metrics API not available (oc adm top nodes failed). usage columns will be empty.\n| Node | CPU Req | CPU Used | Mem Req | Mem Used | Pods |\n|------|---------|----------|---------|----------|------|\n| `n1` | 0% | - | 0% | - | 0/250 |\n" ∧
    get_cluster_resource_balance (.ok c7Nodes) (.error (.ocError "pods boom"))
        (.ok "n1   500m   12%   1000Mi   13%\n") =
      "### Cluster Resource Balance Report\n| Node | CPU Req | CPU Used | Mem Req | Mem Used | Pods |\n|------|---------|----------|---------|----------|------|\n| `n1` | 0% | 12% | 0% | 12% | 0/250 |\n" := by
  refine ⟨fun e p u => rfl, by decide, by decide⟩

/-! ## C8 — format_bytes boundary and monotonicity -/

/-- C8 counterexample: `format_bytes(2**10 * 2**10)` does not contain
`"Mi"` — the `n > 1024` loop condition stops at exactly 1024, so `2**20` is
divided once and rendered `1024.00Ki`. -/
theorem c8_counterexample :
    strContains (format_bytes (PyF.ofInt (2 ^ 10 * 2 ^ 10))) "Mi" = false ∧
    format_bytes (PyF.ofInt (2 ^ 10 * 2 ^ 10)) = "1024.00Ki" := by
  refine ⟨by decide, by decide⟩

/-- C8 (amended): the label scale `fbCount` is monotone non-decreasing in
the size; `format_bytes(2**10 * 2**10)` is `"1024.00Ki"` (one division, since
the loop stops when `n` equals 1024 exactly); and `format_bytes(500)` is
`"500.00"`, containing no binary suffix. -/
theorem c8_amended :
    (∀ s1 s2 : PyF, 0 < s1.d → 0 < s2.d → s1 ≤ s2 → fbCount s1 ≤ fbCount s2) ∧
    format_bytes (PyF.ofInt (2 ^ 10 * 2 ^ 10)) = "1024.00Ki" ∧
    format_bytes (PyF.ofInt 500) = "500.00" ∧
    (∀ lbl, lbl ∈ ["Ki", "Mi", "Gi", "Ti"] →
      strContains (format_bytes (PyF.ofInt 500)) lbl = false) := by
  refine ⟨?_, by decide, by decide, by decide⟩
  intro s1 s2 h1 h2 hle
  have hq : s1.toRat ≤ s2.toRat := (PyF.le_iff_toRat h1 h2).mp hle
  unfold fbCount
  rw [fbLoop_sim 4 s1 0 h1, fbLoop_sim 4 s2 0 h2]
  exact fbLoopQ_mono 4 0 _ _ hq

/-- C8 witness: the amended statement applied at 500 and `2**20`. -/
theorem c8_amended_witness :
    fbCount (PyF.ofInt 500) ≤ fbCount (PyF.ofInt 1048576) :=
  c8_amended.1 (PyF.ofInt 500) (PyF.ofInt 1048576) (by decide) (by decide) (by decide)

/-! ## C9 — division safety of the balance report -/

lemma exc_bind_ok {ε α β : Type} (a : α) (f : α → Except ε β) :
    (Except.ok a : Except ε α) >>= f = f a := rfl

lemma exc_pure {ε α : Type} (a : α) : (pure a : Except ε α) = Except.ok a := rfl

lemma orOne_n_ne (c : PyF) : (orOne c).n ≠ 0 := by
  unfold orOne PyF.truthy
  split
  · next h => simpa using h
  · decide

lemma pyDiv_orOne (a c : PyF) : pyDiv a (orOne c) = .ok (a.div (orOne c)) := by
  unfold pyDiv
  rw [if_neg (orOne_n_ne c)]

/-- C9: every division of `get_cluster_resource_balance` — the four
percentage divisions of a table row, the two ratio divisions of the
`full_req_nodes` check, and the fragmentation-gap division — divides by
`cap or 1.0`, which is never zero, so none of them can raise
`ZeroDivisionError` for any node stats. -/
theorem c9_division_safe :
    (∀ c : PyF, (orOne c).n ≠ 0) ∧
    (∀ (name : String) (s : Stats) (ma : Bool), ∃ r, rowOfStats name s ma = .ok r) ∧
    (∀ s : Stats, ∃ b, fullReqCheck s = .ok b) ∧
    (∀ s : Stats, ∃ g, fragGap s = .ok g) := by
  refine ⟨orOne_n_ne, ?_, ?_, ?_⟩
  · intro name s ma
    simp only [rowOfStats, pyDiv_orOne, exc_bind_ok]
    exact ⟨_, rfl⟩
  · intro s
    by_cases h : (⟨85, 100⟩ : PyF) < s.cpu_req.div (orOne s.cpu_cap)
    · simp only [fullReqCheck, pyDiv_orOne, exc_bind_ok, if_pos h]
      exact ⟨true, rfl⟩
    · simp only [fullReqCheck, pyDiv_orOne, exc_bind_ok, if_neg h]
      exact ⟨_, rfl⟩
  · intro s
    simp only [fragGap, pyDiv_orOne, exc_bind_ok]
    exact ⟨_, rfl⟩

/-! ## C10 — inspect_gpu_pod gating -/

/-- C10: `inspect_gpu_pod` queries the phase first and refuses without
issuing the exec when the stripped phase is not `"Running"`; the exec
command appears in the issued-command trace only under a `"Running"` phase;
and an exec `OCError` whose text contains `"executable file not found"` is
rendered as the drivers-missing message. -/
theorem c10_inspect_gpu_pod (env : OcEnv) (ns pod : String) :
    (∀ phase, env.run (statusPhaseCmd pod ns) = .ok phase → pyStrip phase ≠ "Running" →
      inspect_gpu_pod env ns pod =
        (.ok ("❌ Pod " ++ pod ++ " is not in Running phase (current: " ++ phase ++
          "). Cannot exec."), [statusPhaseCmd pod ns])) ∧
    (nvidiaSmiCmd ns pod ∈ (inspect_gpu_pod env ns pod).2 →
      ∃ phase, env.run (statusPhaseCmd pod ns) = .ok phase ∧ pyStrip phase = "Running") ∧
    (∀ phase m, env.run (statusPhaseCmd pod ns) = .ok phase → pyStrip phase = "Running" →
      env.run (nvidiaSmiCmd ns pod) = .error (.ocError m) →
      strContains m "executable file not found" = true →
      inspect_gpu_pod env ns pod =
        (.ok ("❌ `nvidia-smi` not found in pod " ++ pod ++
          ". The container might not have NVIDIA drivers or tools installed."),
         [statusPhaseCmd pod ns, nvidiaSmiCmd ns pod])) := by
  have hdiff : nvidiaSmiCmd ns pod ≠ statusPhaseCmd pod ns := by
    simp [nvidiaSmiCmd, statusPhaseCmd]
  refine ⟨?_, ?_, ?_⟩
  · intro phase h hne
    simp [inspect_gpu_pod, h, hne]
  · intro hmem
    cases henv : env.run (statusPhaseCmd pod ns) with
    | error e =>
        cases e <;> simp [inspect_gpu_pod, henv, hdiff] at hmem
    | ok phase =>
        by_cases hrun : pyStrip phase ≠ "Running"
        · simp [inspect_gpu_pod, henv, hrun, hdiff] at hmem
        · push_neg at hrun
          exact ⟨phase, rfl, hrun⟩
  · intro phase m h1 h2 h3 h4
    simp [inspect_gpu_pod, h1, h2, h3, gpuErrMsg, h4]

/-- Environment for the C10 witness: the pod reports phase `Pending`. -/
def c10Env : OcEnv :=
  ⟨fun args => if args = statusPhaseCmd "gpupod" "mlns" then .ok "Pending"
    else .error (.ocError "unused"),
   fun _ => .error (.valueError "unused")⟩

/-- C10 witness: the refusal branch at a concrete non-Running pod, with the
exec command never issued. -/
theorem c10_inspect_gpu_pod_witness :
    inspect_gpu_pod c10Env "mlns" "gpupod" =
      (.ok ("❌ Pod gpupod is not in Running phase (current: Pending). Cannot exec."),
       [statusPhaseCmd "gpupod" "mlns"]) :=
  (c10_inspect_gpu_pod c10Env "mlns" "gpupod").1 "Pending" rfl (by decide)

end OpenShiftMCP
